import Mathlib

/-!
Shallow embedding of the process-supervision core in
`app/src/main/cpp/jre_launcher.cpp` (MyAWT).

The embedding models the parent-side behaviour of `launchJvm`, `stopJvm`,
the signal handler and the JNI entry point `nativeLaunchJvm`.  The
operating system (poll results, bytes arriving in the pipe, waitpid
results, signal deliveries) is an explicit oracle: each iteration of the
supervision loop consumes one `LoopEv` describing what the OS did during
that iteration, and well-formedness predicates (`evWfb`, `traceWfb`,
`launchWfb`) restrict the oracles to behaviours a POSIX pipe can actually
exhibit.  All definitions are executable.
-/

namespace MyAWT

abbrev Byte := Nat

/-- Signal number of SIGINT. -/
def SIGINT : Nat := 2

/-- Signal number of SIGKILL. -/
def SIGKILL : Nat := 9

/-- Signal number of SIGTERM. -/
def SIGTERM : Nat := 15

/-- Decoded result of a successful `waitpid`: either the child exited
normally with a code (`WIFEXITED`/`WEXITSTATUS`) or it was killed by a
signal (`WIFSIGNALED`/`WTERMSIG`). -/
inductive Status
  | exited (code : Nat)
  | signaled (sg : Nat)
deriving DecidableEq

/-- The two process-wide globals of `jre_launcher.cpp`:
`static volatile sig_atomic_t child_pid = -1` and
`static volatile sig_atomic_t signal_received = 0`. -/
structure GState where
  child_pid : Int
  signal_received : Nat
deriving DecidableEq

/-- Observable side effects of the launcher (system calls other than the
pipe reads/writes, which are tracked in `LoopSt`). -/
inductive Act
  | spawn (argv : List (List Byte))
  | closeRd
  | closeWr
  | kill (pid : Int) (sg : Nat)
  | reapNB
  | reapBlock
  | sleep (ms : Nat)
  | warnTimeout
deriving DecidableEq

/-- `stopJvm` (lines 51-66): if a child is recorded, send it SIGTERM; on
successful delivery set `signal_received := SIGTERM` and return 0,
otherwise return -1.  `killOk` is the oracle for whether `kill` succeeded.
Returns (return value, new globals, side effects). -/
def stopJvm (g : GState) (killOk : Bool) : Int × GState × List Act :=
  if g.child_pid > 0 then
    if killOk then
      (0, { g with signal_received := SIGTERM }, [Act.kill g.child_pid SIGTERM])
    else
      (-1, g, [Act.kill g.child_pid SIGTERM])
  else
    (-1, g, [])

/-- One atomic access to the globals, as performed by the pieces of the
program: the async signal handler (lines 22-27), a `stopJvm` call, a
supervision-loop iteration (which only reads the globals), the two
writes of `child_pid` inside `launchJvm`, and the reset at the start of
`launchJvm` (lines 74-75). -/
inductive GStep
  | handlerRun (sg : Nat)
  | stopCall (killOk : Bool)
  | loopTick
  | setChild (pid : Int)
  | clearChild
  | launchReset
deriving DecidableEq

/-- Effect of each `GStep` on the globals, following the source: the
handler stores the delivered signal number unconditionally; `stopJvm`
stores SIGTERM only after a successful `kill`; the loop writes neither
global; `launchJvm` writes `child_pid` after fork and on the reap paths,
and resets both globals at its start. -/
def applyGStep (g : GState) : GStep → GState
  | GStep.handlerRun sg => { g with signal_received := sg }
  | GStep.stopCall killOk =>
      if g.child_pid > 0 then
        if killOk then { g with signal_received := SIGTERM } else g
      else g
  | GStep.loopTick => g
  | GStep.setChild pid => { g with child_pid := pid }
  | GStep.clearChild => { g with child_pid := -1 }
  | GStep.launchReset => { child_pid := -1, signal_received := 0 }

/-- Steps belonging to the signal handler, `stopJvm` and the
supervision/shutdown code, i.e. everything except the reset at the start
of a `launchJvm` call. -/
def supervisionStep : GStep → Bool
  | GStep.launchReset => false
  | _ => true

/-- The handler is only installed for SIGINT and SIGTERM (lines 36-41),
so a `handlerRun` step can only carry one of those signal numbers. -/
def handledStep : GStep → Bool
  | GStep.handlerRun sg => sg == SIGINT || sg == SIGTERM
  | _ => true

/-- Result of `poll(fds, 1, 100)` at line 120: failure (with or without
`errno == EINTR`), timeout (returns 0), or readiness with the `POLLIN`
and `POLLERR`/`POLLHUP` bits of `revents`. -/
inductive PollRes
  | pollFail (eintr : Bool)
  | timedOut
  | ready (pollin errhup : Bool)
deriving DecidableEq

/-- Result of `waitpid(pid, &status, WNOHANG)`: reaped the child
(returned `pid`), failed (returned -1), or child still running
(returned 0). -/
inductive WaitRes
  | reaped (st : Status)
  | failed
  | running
deriving DecidableEq

/-- Result of `read(pipefd[0], buffer, 1024)`: a positive number of
bytes, end of file (0), or failure (-1) with or without
`errno ∈ {EAGAIN, EWOULDBLOCK}`. -/
inductive ReadRes
  | chunk (data : List Byte)
  | eof
  | readFail (eagain : Bool)
deriving DecidableEq

/-- Result of `write(STDOUT_FILENO, buffer, bytes_read)`: success, or
failure (-1) with or without `errno == EPIPE`. -/
inductive WriteRes
  | ok
  | failed (epipe : Bool)
deriving DecidableEq

/-- Everything the environment does during one iteration of the
supervision loop (lines 119-172): an optional signal-handler run before
the flag check, bytes the child wrote into the pipe, whether the child
closed the write end, the poll result, an optional signal-handler run
between the two flag checks of the EINTR path, and the results of the
`waitpid`, `read` and `write` calls of this iteration (each consulted
only on the corresponding branch). -/
structure LoopEv where
  handlerSig : Option Nat
  arrive : List Byte
  closeW : Bool
  poll : PollRes
  handlerSig2 : Option Nat
  wait : WaitRes
  readRes : ReadRes
  writeRes : WriteRes
deriving DecidableEq

/-- State carried across loop iterations: the `signal_received` flag as
the loop sees it, the pipe's buffered bytes and writer-closed bit, the
bytes successfully written to the caller's stream (`out`), and a ghost
record of every byte the child has written (`written`). -/
structure LoopSt where
  sig : Nat
  buf : List Byte
  closed : Bool
  out : List Byte
  written : List Byte
deriving DecidableEq

/-- Which `break` ended the supervision loop. -/
inductive LoopExit
  | sigBreak
  | sigEintrBreak
  | pollErrBreak
  | reapBreak (st : Status)
  | waitErrBreak
  | epipeBreak
  | eofBreak
  | readErrBreak
  | hupBreak
deriving DecidableEq

/-- The signal handler's effect on the flag the loop reads: store the
delivered signal number (line 23). -/
def applyHandler (s : LoopSt) : Option Nat → LoopSt
  | none => s
  | some sg => { s with sig := sg }

/-- Environment effects that precede the flag check of an iteration:
the child's writes and close are applied to the pipe, and a pending
signal-handler run updates the flag. -/
def stepEnv (s : LoopSt) (e : LoopEv) : LoopSt :=
  applyHandler
    { s with
      buf := s.buf ++ e.arrive
      written := s.written ++ e.arrive
      closed := s.closed || e.closeW }
    e.handlerSig

/-- The body of one loop iteration after the environment effects,
mirroring lines 122-171: flag check, then the three poll outcomes; on
readiness the `POLLIN` branch (read, forward, EOF, read-error cases)
followed by the `POLLERR | POLLHUP` check. -/
def stepCore (s1 : LoopSt) (e : LoopEv) : LoopSt × Option LoopExit :=
  if s1.sig ≠ 0 then (s1, some LoopExit.sigBreak)
  else
    match e.poll with
    | PollRes.pollFail eintr =>
        if eintr then
          let s2 := applyHandler s1 e.handlerSig2
          if s2.sig ≠ 0 then (s2, some LoopExit.sigEintrBreak) else (s2, none)
        else (s1, some LoopExit.pollErrBreak)
    | PollRes.timedOut =>
        match e.wait with
        | WaitRes.reaped st => (s1, some (LoopExit.reapBreak st))
        | WaitRes.failed => (s1, some LoopExit.waitErrBreak)
        | WaitRes.running => (s1, none)
    | PollRes.ready pollin errhup =>
        let pr : LoopSt × Option LoopExit :=
          if pollin then
            match e.readRes with
            | ReadRes.chunk data =>
                let s2 : LoopSt := { s1 with buf := s1.buf.drop data.length }
                match e.writeRes with
                | WriteRes.ok => ({ s2 with out := s2.out ++ data }, none)
                | WriteRes.failed epipe =>
                    if epipe then (s2, some LoopExit.epipeBreak) else (s2, none)
            | ReadRes.eof => (s1, some LoopExit.eofBreak)
            | ReadRes.readFail eagain =>
                if eagain then (s1, none) else (s1, some LoopExit.readErrBreak)
          else (s1, none)
        match pr with
        | (s2, some b) => (s2, some b)
        | (s2, none) => if errhup then (s2, some LoopExit.hupBreak) else (s2, none)

/-- One full iteration of the supervision loop. -/
def stepIter (s : LoopSt) (e : LoopEv) : LoopSt × Option LoopExit :=
  stepCore (stepEnv s e) e

/-- Run the supervision loop over a finite oracle trace.  Result `none`
in the second component means the trace was exhausted with the loop
still running. -/
def runLoop : LoopSt → List LoopEv → LoopSt × Option LoopExit
  | s, [] => (s, none)
  | s, e :: es =>
      match stepIter s e with
      | (s1, some x) => (s1, some x)
      | (s1, none) => runLoop s1 es

/-- The handler is installed only for SIGINT and SIGTERM, so any signal
number it can store is one of those two. -/
def sigWfb : Option Nat → Bool
  | none => true
  | some sg => sg == SIGINT || sg == SIGTERM

/-- POSIX consistency of a poll result with the pipe state (buffered
bytes, writer closed): a timeout means no data arrived and the writer is
still open; readiness reports hang-up only if the writer closed and
reports at least one of the two conditions. -/
def pollWfb (buf : List Byte) (closed : Bool) : PollRes → Bool
  | PollRes.pollFail _ => true
  | PollRes.timedOut => buf.isEmpty && !closed
  | PollRes.ready pollin errhup => (!errhup || closed) && (pollin || errhup)

/-- POSIX consistency of a read result with the pipe state: a positive
read returns the first `min 1024 buf.length` buffered bytes; end of file
requires an empty buffer with the writer closed; EAGAIN requires an
empty buffer with the writer still open. -/
def readWfb (buf : List Byte) (closed : Bool) : ReadRes → Bool
  | ReadRes.chunk data => (data == buf.take 1024) && !buf.isEmpty
  | ReadRes.eof => buf.isEmpty && closed
  | ReadRes.readFail eagain => !eagain || (buf.isEmpty && !closed)

/-- Well-formedness of one loop event relative to the pipe state it acts
on (after this iteration's arrivals and close are applied). -/
def evWfb (s : LoopSt) (e : LoopEv) : Bool :=
  sigWfb e.handlerSig && sigWfb e.handlerSig2 &&
  pollWfb (stepEnv s e).buf (stepEnv s e).closed e.poll &&
  readWfb (stepEnv s e).buf (stepEnv s e).closed e.readRes

/-- Well-formedness of a whole oracle trace. -/
def traceWfb : LoopSt → List LoopEv → Bool
  | _, [] => true
  | s, e :: es => evWfb s e && traceWfb (stepIter s e).1 es

/-- All writes to the caller's stream in the trace succeed. -/
def writesOkb (es : List LoopEv) : Bool :=
  es.all fun e => e.writeRes == WriteRes.ok

/-- Oracles for the shutdown protocol: the `waitpid(WNOHANG)` results of
the kill-wait poll loop (lines 185-195), and the result of the blocking
`waitpid` at line 205 (`none` means it returned -1). -/
structure ShutdownEv where
  killWaits : List WaitRes
  blockWait : Option Status
deriving DecidableEq

/-- The kill-wait loop of lines 184-195: while `waited < 5000`, call
`waitpid(WNOHANG)`; break if it reaped the child or failed; otherwise
sleep 100 ms and add 100 to `waited`.  `fuel` bounds the recursion; 50
units suffice since `waited` grows by 100 towards the 5000 bound.
Returns the final `waited` and the emitted actions; an exhausted oracle
list behaves like a child that never gets reaped. -/
def killWaitGo : List WaitRes → Nat → Nat → Nat × List Act
  | _, waited, 0 => (waited, [])
  | ws, waited, fuel + 1 =>
      if waited < 5000 then
        match ws with
        | [] =>
            let r := killWaitGo [] (waited + 100) fuel
            (r.1, Act.reapNB :: Act.sleep 100 :: r.2)
        | w :: rest =>
            match w with
            | WaitRes.reaped _ => (waited, [Act.reapNB])
            | WaitRes.failed => (waited, [Act.reapNB])
            | WaitRes.running =>
                let r := killWaitGo rest (waited + 100) fuel
                (r.1, Act.reapNB :: Act.sleep 100 :: r.2)
      else (waited, [])

/-- The post-loop shutdown code of `launchJvm` (lines 174-218): close
the read end; if the flag is set, send SIGKILL, run the kill-wait loop,
warn on timeout, clear `child_pid` and return -1; otherwise do a
blocking reap, clear `child_pid`, and return -1 on reap failure or
signal-death, else the child's exit code.
Returns (return value, final `child_pid`, actions). -/
def afterLoop (pid : Int) (sg : Nat) (sd : ShutdownEv) : Int × Int × List Act :=
  if sg ≠ 0 then
    let r := killWaitGo sd.killWaits 0 50
    let warn := if r.1 ≥ 5000 then [Act.warnTimeout] else []
    (-1, -1, Act.closeRd :: Act.kill pid SIGKILL :: (r.2 ++ warn))
  else
    match sd.blockWait with
    | none => (-1, -1, [Act.closeRd, Act.reapBlock])
    | some (Status.signaled _) => (-1, -1, [Act.closeRd, Act.reapBlock])
    | some (Status.exited c) => ((c : Int), -1, [Act.closeRd, Act.reapBlock])

/-- Oracles for the setup phase of `launchJvm`: whether the `sigaction`
calls succeed, whether `pipe` succeeds, and the `fork` result (`none` =
failure, `some pid` = parent sees child `pid`). -/
structure SetupEv where
  sigactionOk : Bool
  pipeOk : Bool
  forkRes : Option Int
deriving DecidableEq

/-- Complete oracle for one `launchJvm` call. -/
structure LaunchEv where
  setup : SetupEv
  events : List LoopEv
  shutdown : ShutdownEv
deriving DecidableEq

/-- Observable outcome of a `launchJvm` call: return value, final value
of the `child_pid` global, `signal_received` as seen at loop exit, bytes
forwarded to the caller, side-effect actions, and which break ended the
loop (`none` on the pre-loop failure returns). -/
structure LaunchOut where
  ret : Int
  child_pid : Int
  sig : Nat
  out : List Byte
  acts : List Act
  exit : Option LoopExit
deriving DecidableEq

/-- Loop state at the start of supervision: flag reset, empty pipe. -/
def initLoopSt : LoopSt :=
  { sig := 0, buf := [], closed := false, out := [], written := [] }

/-- `launchJvm` (lines 68-220): install handlers (failure returns -1
before the globals are reset), reset the globals, create the pipe
(failure returns -1), fork (failure closes both pipe ends and returns
-1), then record the child, close the write end, run the supervision
loop and the shutdown protocol.  `none` means the loop never exited
within the oracle trace (the call is still blocked). -/
def launchJvm (argv : List (List Byte)) (g : GState) (ev : LaunchEv) :
    Option LaunchOut :=
  if ev.setup.sigactionOk = false then
    some { ret := -1, child_pid := g.child_pid, sig := g.signal_received,
           out := [], acts := [], exit := none }
  else if ev.setup.pipeOk = false then
    some { ret := -1, child_pid := -1, sig := 0, out := [], acts := [],
           exit := none }
  else
    match ev.setup.forkRes with
    | none =>
        some { ret := -1, child_pid := -1, sig := 0, out := [],
               acts := [Act.closeRd, Act.closeWr], exit := none }
    | some pid =>
        match runLoop initLoopSt ev.events with
        | (_, none) => none
        | (sF, some x) =>
            let r := afterLoop pid sF.sig ev.shutdown
            some { ret := r.1, child_pid := r.2.1, sig := sF.sig,
                   out := sF.out,
                   acts := Act.spawn argv :: Act.closeWr :: r.2.2,
                   exit := some x }

/-- Did the supervision loop itself reap the child (timeout branch)? -/
def isReapExit : Option LoopExit → Bool
  | some (LoopExit.reapBreak _) => true
  | _ => false

/-- Well-formedness of a full launch oracle: the loop trace is
well-formed, and if the loop's non-blocking `waitpid` already reaped the
child then the post-loop blocking `waitpid` must fail (the pid has no
zombie left to reap). -/
def launchWfb (ev : LaunchEv) : Bool :=
  traceWfb initLoopSt ev.events &&
  (!(isReapExit (runLoop initLoopSt ev.events).2) ||
    ev.shutdown.blockWait.isNone)

/-- One element of the `jobjectArray` handed to `nativeLaunchJvm`: a
null element, a string whose UTF conversion succeeds with the given
bytes, or a string whose UTF conversion fails. -/
inductive JArg
  | nullElem
  | strOk (s : List Byte)
  | strBad
deriving DecidableEq

/-- The argument actually placed in `argv` for each array element: null
elements become the empty string (lines 278-282). -/
def substArg : JArg → List Byte
  | JArg.nullElem => []
  | JArg.strOk s => s
  | JArg.strBad => []

/-- The marshaling loop of lines 276-294: build the argument vector,
substituting the empty string for null elements; fail (return -1) at the
first element whose UTF conversion fails. -/
def marshal : List JArg → Option (List (List Byte))
  | [] => some []
  | a :: rest =>
      match a with
      | JArg.strBad => none
      | JArg.nullElem => (marshal rest).map fun l => [] :: l
      | JArg.strOk s => (marshal rest).map fun l => s :: l

/-- The JNI entry point `nativeLaunchJvm` (lines 260-307): reject an
empty argument array with -1, reject a failed UTF conversion with -1,
otherwise launch with the marshaled argument vector. -/
def nativeLaunchJvm (g : GState) (jargs : List JArg) (ev : LaunchEv) :
    Option LaunchOut :=
  if jargs.length = 0 then
    some { ret := -1, child_pid := g.child_pid, sig := g.signal_received,
           out := [], acts := [], exit := none }
  else
    match marshal jargs with
    | none =>
        some { ret := -1, child_pid := g.child_pid, sig := g.signal_received,
               out := [], acts := [], exit := none }
    | some argv => launchJvm argv g ev

/-- Total milliseconds slept in an action list. -/
def sleepTotal : List Act → Nat
  | [] => 0
  | Act.sleep n :: r => n + sleepTotal r
  | _ :: r => sleepTotal r

/-- An action list consisting only of non-blocking reap attempts,
100 ms sleeps and the timeout warning: the shape of the kill-wait
polling loop. -/
def pollingActs : List Act → Bool
  | [] => true
  | Act.reapNB :: r => pollingActs r
  | Act.sleep n :: r => n == 100 && pollingActs r
  | Act.warnTimeout :: r => pollingActs r
  | _ => false

/-- Actions that block or reap: any reap attempt or sleep. -/
def blockingAct : Act → Bool
  | Act.reapNB => true
  | Act.reapBlock => true
  | Act.sleep _ => true
  | _ => false

/-- Claim C4: `stopJvm` returns success (0) exactly when a child is
recorded and the SIGTERM delivery succeeded; on success it sets
`signal_received` to SIGTERM; otherwise it returns -1 leaving the
globals unchanged; and its actions never block or reap. -/
theorem stopJvm_success_iff (g : GState) (killOk : Bool) :
    ((stopJvm g killOk).1 = 0 ↔ (g.child_pid > 0 ∧ killOk = true)) ∧
    ((stopJvm g killOk).1 = 0 →
      (stopJvm g killOk).2.1.signal_received = SIGTERM) ∧
    ((stopJvm g killOk).1 ≠ 0 →
      (stopJvm g killOk).1 = -1 ∧ (stopJvm g killOk).2.1 = g) ∧
    ((stopJvm g killOk).2.2.all fun a => !(blockingAct a)) = true := by
  unfold stopJvm
  by_cases h : g.child_pid > 0
  · cases killOk <;> simp [h, blockingAct]
  · simp [h, blockingAct]

/-- Witness for the claim C4 theorem at a concrete state. -/
theorem stopJvm_success_iff_witness :
    ((stopJvm { child_pid := 5, signal_received := 0 } true).1 = 0 ↔
      ((5 : Int) > 0 ∧ true = true)) ∧
    ((stopJvm { child_pid := 5, signal_received := 0 } true).1 = 0 →
      (stopJvm { child_pid := 5, signal_received := 0 } true).2.1.signal_received
        = SIGTERM) ∧
    ((stopJvm { child_pid := 5, signal_received := 0 } true).1 ≠ 0 →
      (stopJvm { child_pid := 5, signal_received := 0 } true).1 = -1 ∧
      (stopJvm { child_pid := 5, signal_received := 0 } true).2.1
        = { child_pid := 5, signal_received := 0 }) ∧
    ((stopJvm { child_pid := 5, signal_received := 0 } true).2.2.all
      fun a => !(blockingAct a)) = true :=
  stopJvm_success_iff { child_pid := 5, signal_received := 0 } true

/-- Claim C5 counterexample: a write failure whose `errno` is not EPIPE
does not end the supervision loop; the iteration finishes with no break
and the loop would continue.  This refutes the claim that every write
failure is fatal to the loop. -/
theorem writeFailureContinues_counterexample :
    evWfb initLoopSt
      { handlerSig := none, arrive := [7], closeW := false,
        poll := PollRes.ready true false, handlerSig2 := none,
        wait := WaitRes.running, readRes := ReadRes.chunk [7],
        writeRes := WriteRes.failed false } = true ∧
    (stepIter initLoopSt
      { handlerSig := none, arrive := [7], closeW := false,
        poll := PollRes.ready true false, handlerSig2 := none,
        wait := WaitRes.running, readRes := ReadRes.chunk [7],
        writeRes := WriteRes.failed false }).2 = none := by
  decide

/-- Claim C5 (amended): during output forwarding, a write failure with
EPIPE ends the loop at once; any other write failure is ignored — the
chunk is dropped and the iteration proceeds to the hang-up check, so the
loop continues unless hang-up was reported. -/
theorem writeFailure_cases (s : LoopSt) (e : LoopEv) (data : List Byte)
    (errhup : Bool)
    (hsig : (stepEnv s e).sig = 0)
    (hpoll : e.poll = PollRes.ready true errhup)
    (hread : e.readRes = ReadRes.chunk data) :
    (e.writeRes = WriteRes.failed true →
      stepIter s e =
        ({ stepEnv s e with buf := (stepEnv s e).buf.drop data.length },
         some LoopExit.epipeBreak)) ∧
    (e.writeRes = WriteRes.failed false →
      stepIter s e =
        ({ stepEnv s e with buf := (stepEnv s e).buf.drop data.length },
         if errhup then some LoopExit.hupBreak else none)) := by
  constructor <;> intro hw <;> cases errhup <;>
    simp [stepIter, stepCore, hpoll, hread, hw, hsig]

/-- Witness for the claim C5 theorem at a concrete iteration. -/
theorem writeFailure_cases_witness :
    (({ handlerSig := none, arrive := [7], closeW := false,
        poll := PollRes.ready true false, handlerSig2 := none,
        wait := WaitRes.running, readRes := ReadRes.chunk [7],
        writeRes := WriteRes.failed true } : LoopEv).writeRes
          = WriteRes.failed true →
      stepIter initLoopSt
        { handlerSig := none, arrive := [7], closeW := false,
          poll := PollRes.ready true false, handlerSig2 := none,
          wait := WaitRes.running, readRes := ReadRes.chunk [7],
          writeRes := WriteRes.failed true } =
        ({ stepEnv initLoopSt
            { handlerSig := none, arrive := [7], closeW := false,
              poll := PollRes.ready true false, handlerSig2 := none,
              wait := WaitRes.running, readRes := ReadRes.chunk [7],
              writeRes := WriteRes.failed true } with
           buf := (stepEnv initLoopSt
            { handlerSig := none, arrive := [7], closeW := false,
              poll := PollRes.ready true false, handlerSig2 := none,
              wait := WaitRes.running, readRes := ReadRes.chunk [7],
              writeRes := WriteRes.failed true }).buf.drop
              ([7] : List Byte).length },
         some LoopExit.epipeBreak)) ∧
    (({ handlerSig := none, arrive := [7], closeW := false,
        poll := PollRes.ready true false, handlerSig2 := none,
        wait := WaitRes.running, readRes := ReadRes.chunk [7],
        writeRes := WriteRes.failed true } : LoopEv).writeRes
          = WriteRes.failed false →
      stepIter initLoopSt
        { handlerSig := none, arrive := [7], closeW := false,
          poll := PollRes.ready true false, handlerSig2 := none,
          wait := WaitRes.running, readRes := ReadRes.chunk [7],
          writeRes := WriteRes.failed true } =
        ({ stepEnv initLoopSt
            { handlerSig := none, arrive := [7], closeW := false,
              poll := PollRes.ready true false, handlerSig2 := none,
              wait := WaitRes.running, readRes := ReadRes.chunk [7],
              writeRes := WriteRes.failed true } with
           buf := (stepEnv initLoopSt
            { handlerSig := none, arrive := [7], closeW := false,
              poll := PollRes.ready true false, handlerSig2 := none,
              wait := WaitRes.running, readRes := ReadRes.chunk [7],
              writeRes := WriteRes.failed true }).buf.drop
              ([7] : List Byte).length },
         if false then some LoopExit.hupBreak else none)) :=
  writeFailure_cases initLoopSt
    { handlerSig := none, arrive := [7], closeW := false,
      poll := PollRes.ready true false, handlerSig2 := none,
      wait := WaitRes.running, readRes := ReadRes.chunk [7],
      writeRes := WriteRes.failed true } [7] false (by decide) rfl rfl

/-- Claim C7: if the cancellation flag is non-zero when the poll returns
(whether set in an earlier iteration or by a handler run during this
one), the loop exits at the flag check of this very iteration with no
read attempted: the final state is exactly the environment-updated state
(pipe buffer unconsumed, no output added) and the remaining trace is
never consumed.  Since the flag is persistent, a cancellation preceding
the loop is observed on the first iteration. -/
theorem cancelObservedFirst (s : LoopSt) (e : LoopEv) (es : List LoopEv)
    (hw : sigWfb e.handlerSig = true)
    (hs : s.sig ≠ 0 ∨ (stepEnv s e).sig ≠ 0) :
    runLoop s (e :: es) = (stepEnv s e, some LoopExit.sigBreak) := by
  have hsig : (stepEnv s e).sig ≠ 0 := by
    rcases hs with h | h
    · unfold stepEnv
      cases hh : e.handlerSig with
      | none => simpa [applyHandler] using h
      | some sg =>
          rw [hh] at hw
          simp [sigWfb, SIGINT, SIGTERM] at hw
          simp [applyHandler]
          rcases hw with h2 | h2 <;> omega
    · exact h
  simp [runLoop, stepIter, stepCore, hsig]

/-- Witness for the claim C7 theorem: a cancellation pending before the
first iteration makes the loop exit immediately on its first event. -/
theorem cancelObservedFirst_witness :
    runLoop { sig := 15, buf := [], closed := false, out := [], written := [] }
      [{ handlerSig := none, arrive := [], closeW := false,
         poll := PollRes.timedOut, handlerSig2 := none,
         wait := WaitRes.running, readRes := ReadRes.readFail true,
         writeRes := WriteRes.ok }] =
      (stepEnv { sig := 15, buf := [], closed := false, out := [], written := [] }
        { handlerSig := none, arrive := [], closeW := false,
          poll := PollRes.timedOut, handlerSig2 := none,
          wait := WaitRes.running, readRes := ReadRes.readFail true,
          writeRes := WriteRes.ok },
       some LoopExit.sigBreak) :=
  cancelObservedFirst
    { sig := 15, buf := [], closed := false, out := [], written := [] }
    { handlerSig := none, arrive := [], closeW := false,
      poll := PollRes.timedOut, handlerSig2 := none,
      wait := WaitRes.running, readRes := ReadRes.readFail true,
      writeRes := WriteRes.ok }
    [] (by decide) (Or.inl (by decide))

/-- Claim C8 counterexample: a handler run delivering SIGTERM while the
flag already holds SIGINT changes the flag to a different non-zero
value, so the step neither leaves the flag unchanged nor moves it from
"not requested" to "requested". -/
theorem flagMonotone_counterexample :
    supervisionStep (GStep.handlerRun SIGTERM) = true ∧
    handledStep (GStep.handlerRun SIGTERM) = true ∧
    ¬ ((applyGStep { child_pid := 5, signal_received := SIGINT }
          (GStep.handlerRun SIGTERM)).signal_received = SIGINT ∨
       ((SIGINT : Nat) = 0 ∧
        (applyGStep { child_pid := 5, signal_received := SIGINT }
          (GStep.handlerRun SIGTERM)).signal_received ≠ 0)) := by
  decide

/-- Claim C8 (amended): every step of the signal handler, `stopJvm` and
the supervision/shutdown code either leaves `signal_received` unchanged
or sets it to a handled (non-zero) signal — in particular a set flag is
never cleared mid-supervision — and the flag is reset to 0 only by the
reset step at the start of a `launchJvm` call. -/
theorem flagMonotone_amended (g : GState) (st : GStep)
    (h1 : supervisionStep st = true) (h2 : handledStep st = true) :
    ((applyGStep g st).signal_received = g.signal_received ∨
     (applyGStep g st).signal_received = SIGINT ∨
     (applyGStep g st).signal_received = SIGTERM) ∧
    (g.signal_received ≠ 0 → (applyGStep g st).signal_received ≠ 0) ∧
    (applyGStep g GStep.launchReset).signal_received = 0 := by
  cases st with
  | handlerRun sg =>
      simp only [handledStep, Bool.or_eq_true, beq_iff_eq] at h2
      rcases h2 with h | h <;>
        simp [applyGStep, h, SIGINT, SIGTERM]
  | stopCall killOk =>
      by_cases h : g.child_pid > 0
      · cases killOk <;> simp [applyGStep, h, SIGTERM]
      · simp [applyGStep, h]
  | loopTick => simp [applyGStep]
  | setChild pid => simp [applyGStep]
  | clearChild => simp [applyGStep]
  | launchReset => simp [supervisionStep] at h1

/-- Witness for the claim C8 theorem at a concrete step. -/
theorem flagMonotone_amended_witness :
    ((applyGStep { child_pid := 5, signal_received := 0 }
        (GStep.handlerRun SIGTERM)).signal_received =
      ({ child_pid := 5, signal_received := 0 } : GState).signal_received ∨
     (applyGStep { child_pid := 5, signal_received := 0 }
        (GStep.handlerRun SIGTERM)).signal_received = SIGINT ∨
     (applyGStep { child_pid := 5, signal_received := 0 }
        (GStep.handlerRun SIGTERM)).signal_received = SIGTERM) ∧
    (({ child_pid := 5, signal_received := 0 } : GState).signal_received ≠ 0 →
      (applyGStep { child_pid := 5, signal_received := 0 }
        (GStep.handlerRun SIGTERM)).signal_received ≠ 0) ∧
    (applyGStep { child_pid := 5, signal_received := 0 }
      GStep.launchReset).signal_received = 0 :=
  flagMonotone_amended { child_pid := 5, signal_received := 0 }
    (GStep.handlerRun SIGTERM) (by decide) (by decide)

/-- Claim C6: with the handlers installed, a pipe-creation failure makes
`launchJvm` return -1 with no actions at all (no child, nothing to
close), and a fork failure makes it return -1 after closing exactly the
two pipe ends; on both paths the `child_pid` global is left cleared. -/
theorem spawnFailureClean (argv : List (List Byte)) (g : GState)
    (ev : LaunchEv) (hsa : ev.setup.sigactionOk = true) :
    (ev.setup.pipeOk = false →
      launchJvm argv g ev =
        some { ret := -1, child_pid := -1, sig := 0, out := [], acts := [],
               exit := none }) ∧
    (ev.setup.pipeOk = true → ev.setup.forkRes = none →
      launchJvm argv g ev =
        some { ret := -1, child_pid := -1, sig := 0, out := [],
               acts := [Act.closeRd, Act.closeWr], exit := none }) := by
  constructor
  · intro hp
    simp [launchJvm, hsa, hp]
  · intro hp hf
    simp [launchJvm, hsa, hp, hf]

/-- Witness for the claim C6 theorem on a concrete fork failure. -/
theorem spawnFailureClean_witness :
    launchJvm [[47]] { child_pid := -1, signal_received := 0 }
      { setup := { sigactionOk := true, pipeOk := true, forkRes := none },
        events := [], shutdown := { killWaits := [], blockWait := none } } =
      some { ret := -1, child_pid := -1, sig := 0, out := [],
             acts := [Act.closeRd, Act.closeWr], exit := none } :=
  (spawnFailureClean [[47]] { child_pid := -1, signal_received := 0 }
    { setup := { sigactionOk := true, pipeOk := true, forkRes := none },
      events := [], shutdown := { killWaits := [], blockWait := none } }
    rfl).2 rfl rfl

/-- The shutdown code clears the `child_pid` global on every path. -/
theorem afterLoop_child (pid : Int) (sg : Nat) (sd : ShutdownEv) :
    (afterLoop pid sg sd).2.1 = -1 := by
  unfold afterLoop
  by_cases h : sg ≠ 0
  · simp [h]
  · rcases hb : sd.blockWait with _ | st
    · simp [h, hb]
    · cases st <;> simp [h, hb]

/-- Claim C9: whenever `launchJvm` returns after the supervision loop
exited (normal reap, reap failure, signal death, cancellation with or
without forced-reap timeout), the `child_pid` global has been cleared to
-1. -/
theorem childCleared (argv : List (List Byte)) (g : GState) (ev : LaunchEv)
    (r : LaunchOut) (hrun : launchJvm argv g ev = some r)
    (hx : r.exit ≠ none) :
    r.child_pid = -1 := by
  unfold launchJvm at hrun
  by_cases h1 : ev.setup.sigactionOk = false
  · rw [if_pos h1] at hrun
    cases Option.some.inj hrun
    exact absurd rfl hx
  · rw [if_neg h1] at hrun
    by_cases h2 : ev.setup.pipeOk = false
    · rw [if_pos h2] at hrun
      cases Option.some.inj hrun
      exact absurd rfl hx
    · rw [if_neg h2] at hrun
      rcases hf : ev.setup.forkRes with _ | pid <;> rw [hf] at hrun
      · cases Option.some.inj hrun
        exact absurd rfl hx
      · rcases hr : runLoop initLoopSt ev.events with ⟨sF, oX⟩
        rw [hr] at hrun
        cases oX with
        | none => exact absurd hrun (by simp)
        | some x =>
            cases Option.some.inj hrun
            exact afterLoop_child pid sF.sig ev.shutdown

/-- Witness for the claim C9 theorem on a concrete cancelled launch. -/
theorem childCleared_witness :
    ({ ret := -1, child_pid := -1, sig := 15, out := [],
       acts := [Act.spawn [[47]], Act.closeWr, Act.closeRd,
                Act.kill 42 SIGKILL, Act.reapNB],
       exit := some LoopExit.sigBreak } : LaunchOut).child_pid = -1 :=
  childCleared [[47]] { child_pid := -1, signal_received := 0 }
    { setup := { sigactionOk := true, pipeOk := true, forkRes := some 42 },
      events := [{ handlerSig := some 15, arrive := [], closeW := false,
                   poll := PollRes.timedOut, handlerSig2 := none,
                   wait := WaitRes.running, readRes := ReadRes.readFail true,
                   writeRes := WriteRes.ok }],
      shutdown := { killWaits := [WaitRes.reaped (Status.exited 0)],
                    blockWait := none } }
    { ret := -1, child_pid := -1, sig := 15, out := [],
      acts := [Act.spawn [[47]], Act.closeWr, Act.closeRd,
               Act.kill 42 SIGKILL, Act.reapNB],
      exit := some LoopExit.sigBreak }
    (by decide) (by decide)

/-- If no element's UTF conversion fails, marshaling succeeds and yields
the element-wise substitution (null elements become empty strings). -/
theorem marshal_ok (jargs : List JArg) (h : JArg.strBad ∉ jargs) :
    marshal jargs = some (jargs.map substArg) := by
  induction jargs with
  | nil => rfl
  | cons a rest ih =>
      have ha : a ≠ JArg.strBad := fun he => h (he ▸ List.mem_cons_self a rest)
      have hr : JArg.strBad ∉ rest := fun hm => h (List.mem_cons_of_mem a hm)
      cases a with
      | nullElem => simp [marshal, substArg, ih hr]
      | strOk s => simp [marshal, substArg, ih hr]
      | strBad => exact absurd rfl ha

/-- If some element's UTF conversion fails, marshaling fails. -/
theorem marshal_bad (jargs : List JArg) (h : JArg.strBad ∈ jargs) :
    marshal jargs = none := by
  induction jargs with
  | nil => simp at h
  | cons a rest ih =>
      cases a with
      | strBad => rfl
      | nullElem =>
          have hm : JArg.strBad ∈ rest := by
            rcases List.mem_cons.mp h with h0 | h0
            · exact absurd h0 (by simp)
            · exact h0
          simp [marshal, ih hm]
      | strOk s =>
          have hm : JArg.strBad ∈ rest := by
            rcases List.mem_cons.mp h with h0 | h0
            · exact absurd h0 (by simp)
            · exact h0
          simp [marshal, ih hm]

/-- Claim C10: the JNI entry point does not fail on null elements — it
launches with the substituted argument vector whenever the array is
non-empty and every conversion succeeds; it returns -1 without launching
(no actions) exactly for an empty array or a failed UTF conversion. -/
theorem nullArgsLaunch (g : GState) (jargs : List JArg) (ev : LaunchEv) :
    (jargs ≠ [] → JArg.strBad ∉ jargs →
      nativeLaunchJvm g jargs ev = launchJvm (jargs.map substArg) g ev) ∧
    (jargs = [] →
      nativeLaunchJvm g jargs ev =
        some { ret := -1, child_pid := g.child_pid,
               sig := g.signal_received, out := [], acts := [],
               exit := none }) ∧
    (JArg.strBad ∈ jargs →
      nativeLaunchJvm g jargs ev =
        some { ret := -1, child_pid := g.child_pid,
               sig := g.signal_received, out := [], acts := [],
               exit := none }) := by
  refine ⟨?_, ?_, ?_⟩
  · intro h1 h2
    have hl : ¬ jargs.length = 0 := by simpa using h1
    simp [nativeLaunchJvm, hl, marshal_ok jargs h2]
  · intro h
    subst h
    rfl
  · intro h
    have hl : ¬ jargs.length = 0 := by
      intro h0
      rw [List.length_eq_zero.mp h0] at h
      simp at h
    simp [nativeLaunchJvm, hl, marshal_bad jargs h]

/-- Witness for the claim C10 theorem: a null element is substituted by
the empty string and the launch proceeds. -/
theorem nullArgsLaunch_witness :
    nativeLaunchJvm { child_pid := -1, signal_received := 0 }
      [JArg.nullElem, JArg.strOk [106]]
      { setup := { sigactionOk := false, pipeOk := false, forkRes := none },
        events := [], shutdown := { killWaits := [], blockWait := none } } =
    launchJvm [[], [106]] { child_pid := -1, signal_received := 0 }
      { setup := { sigactionOk := false, pipeOk := false, forkRes := none },
        events := [], shutdown := { killWaits := [], blockWait := none } } :=
  (nullArgsLaunch { child_pid := -1, signal_received := 0 }
    [JArg.nullElem, JArg.strOk [106]]
    { setup := { sigactionOk := false, pipeOk := false, forkRes := none },
      events := [], shutdown := { killWaits := [], blockWait := none } }).1
    (by decide) (by decide)

theorem applyHandler_out (s : LoopSt) (h : Option Nat) :
    (applyHandler s h).out = s.out := by
  cases h <;> rfl

theorem applyHandler_buf (s : LoopSt) (h : Option Nat) :
    (applyHandler s h).buf = s.buf := by
  cases h <;> rfl

theorem applyHandler_written (s : LoopSt) (h : Option Nat) :
    (applyHandler s h).written = s.written := by
  cases h <;> rfl

/-- Dropping as many elements as a take returned is dropping the take
bound. -/
theorem drop_take_len (l : List Byte) (n : Nat) :
    l.drop (l.take n).length = l.drop n := by
  rw [List.length_take]
  rcases Nat.le_total n l.length with h | h
  · rw [Nat.min_eq_left h]
  · rw [Nat.min_eq_right h, List.drop_length, List.drop_eq_nil_of_le h]

/-- The environment step preserves the accounting invariant "forwarded
bytes followed by buffered bytes = all bytes the child wrote". -/
theorem stepEnv_inv (s : LoopSt) (e : LoopEv)
    (h : s.out ++ s.buf = s.written) :
    (stepEnv s e).out ++ (stepEnv s e).buf = (stepEnv s e).written := by
  unfold stepEnv
  rw [applyHandler_out, applyHandler_buf, applyHandler_written]
  simp only []
  rw [← List.append_assoc, h]

/-- The loop body preserves the accounting invariant, provided the read
result is consistent with the pipe and the write succeeded. -/
theorem stepCore_inv (s1 : LoopSt) (e : LoopEv)
    (hrd : readWfb s1.buf s1.closed e.readRes = true)
    (hwr : e.writeRes = WriteRes.ok)
    (h : s1.out ++ s1.buf = s1.written) :
    (stepCore s1 e).1.out ++ (stepCore s1 e).1.buf
      = (stepCore s1 e).1.written := by
  unfold stepCore
  by_cases hs : s1.sig ≠ 0
  · simp [hs, h]
  · cases e.poll with
    | pollFail eintr =>
        cases eintr with
        | false => simp [hs, h]
        | true =>
            by_cases h2 : (applyHandler s1 e.handlerSig2).sig ≠ 0 <;>
              simp [hs, h2, applyHandler_out, applyHandler_buf,
                applyHandler_written, h]
    | timedOut => cases e.wait <;> simp [hs, h]
    | ready pollin errhup =>
        cases hrr : e.readRes with
        | chunk data =>
            rw [hrr] at hrd
            simp only [readWfb, Bool.and_eq_true, beq_iff_eq] at hrd
            rcases hrd with ⟨hdata, _⟩
            cases pollin with
            | false => cases errhup <;> simp [hs, h]
            | true =>
                cases errhup <;>
                  · simp [hs, hrr, hwr]
                    rw [hdata, drop_take_len, List.take_append_drop]
                    exact h
        | eof => cases pollin <;> cases errhup <;> simp [hs, hrr, h]
        | readFail eagain =>
            cases pollin <;> cases errhup <;> cases eagain <;>
              simp [hs, hrr, h]

/-- If the loop body exits via the EOF break, the pipe buffer is empty
(a consistent read can only return 0 on an empty buffer with the writer
closed). -/
theorem stepCore_eof (s1 : LoopSt) (e : LoopEv)
    (hrd : readWfb s1.buf s1.closed e.readRes = true)
    (hx : (stepCore s1 e).2 = some LoopExit.eofBreak) :
    (stepCore s1 e).1.buf = [] := by
  unfold stepCore at hx ⊢
  by_cases hs : s1.sig ≠ 0
  · simp [hs] at hx
  · cases hp : e.poll with
    | pollFail eintr =>
        cases eintr with
        | false => simp [hs, hp] at hx
        | true =>
            by_cases h2 : (applyHandler s1 e.handlerSig2).sig ≠ 0 <;>
              simp [hs, hp, h2] at hx
    | timedOut =>
        cases hw : e.wait <;> simp [hs, hp, hw] at hx
    | ready pollin errhup =>
        cases hrr : e.readRes with
        | chunk data =>
            cases hwr2 : e.writeRes with
            | ok =>
                cases pollin <;> cases errhup <;>
                  simp [hs, hp, hrr, hwr2] at hx
            | failed epipe =>
                cases pollin <;> cases errhup <;> cases epipe <;>
                  simp [hs, hp, hrr, hwr2] at hx
        | eof =>
            rw [hrr] at hrd
            simp only [readWfb, Bool.and_eq_true, List.isEmpty_iff] at hrd
            cases pollin with
            | false => cases errhup <;> simp [hs, hp, hrr] at hx
            | true => cases errhup <;> simp [hs, hp, hrr, hrd.1]
        | readFail eagain =>
            cases pollin <;> cases errhup <;> cases eagain <;>
              simp [hs, hp, hrr] at hx

/-- Loop-level accounting: over any well-formed trace whose writes all
succeed, the supervision loop preserves "forwarded ++ buffered = all
bytes the child wrote", and if it exits via the EOF break the buffer is
empty at exit. -/
theorem runLoop_inv (es : List LoopEv) : ∀ s : LoopSt,
    traceWfb s es = true → writesOkb es = true →
    s.out ++ s.buf = s.written →
    ((runLoop s es).1.out ++ (runLoop s es).1.buf
        = (runLoop s es).1.written ∧
     ((runLoop s es).2 = some LoopExit.eofBreak →
        (runLoop s es).1.buf = [])) := by
  induction es with
  | nil =>
      intro s _ _ hinv
      exact ⟨hinv, by simp [runLoop]⟩
  | cons e es ih =>
      intro s hwf hok hinv
      have hwf1 : evWfb s e = true ∧ traceWfb (stepIter s e).1 es = true := by
        simpa [traceWfb, Bool.and_eq_true] using hwf
      have hok1 : e.writeRes = WriteRes.ok ∧ writesOkb es = true := by
        simpa [writesOkb, Bool.and_eq_true, beq_iff_eq] using hok
      have hrd : readWfb (stepEnv s e).buf (stepEnv s e).closed e.readRes
          = true := by
        have := hwf1.1
        simp only [evWfb, Bool.and_eq_true] at this
        exact this.2
      have hinv1 : (stepIter s e).1.out ++ (stepIter s e).1.buf
          = (stepIter s e).1.written :=
        stepCore_inv (stepEnv s e) e hrd hok1.1 (stepEnv_inv s e hinv)
      rcases hstep : stepIter s e with ⟨s1, oX⟩
      cases oX with
      | none =>
          have hrun : runLoop s (e :: es) = runLoop s1 es := by
            simp [runLoop, hstep]
          rw [hrun]
          refine ih s1 ?_ hok1.2 ?_
          · have := hwf1.2
            rw [hstep] at this
            exact this
          · rw [hstep] at hinv1
            exact hinv1
      | some x =>
          have hrun : runLoop s (e :: es) = (s1, some x) := by
            simp [runLoop, hstep]
          rw [hrun]
          constructor
          · rw [hstep] at hinv1; exact hinv1
          · intro hx
            have heof : (stepCore (stepEnv s e) e).2 = some LoopExit.eofBreak := by
              have : (stepIter s e).2 = some LoopExit.eofBreak := by
                rw [hstep]
                simpa using hx
              simpa [stepIter] using this
            have := stepCore_eof (stepEnv s e) e hrd heof
            have hbuf : (stepIter s e).1.buf = [] := by
              simpa [stepIter] using this
            rw [hstep] at hbuf
            exact hbuf

set_option maxRecDepth 100000 in
/-- Claim C2 counterexample: the child writes 1025 bytes and closes its
end; poll reports readiness together with hang-up.  The loop forwards a
single 1024-byte chunk, then exits on the hang-up check with one byte
still buffered, which is lost: the forwarded bytes are not all the bytes
the child wrote, even though the trace is well-formed and every write
succeeded. -/
theorem orderedDelivery_counterexample :
    traceWfb initLoopSt
      [{ handlerSig := none, arrive := List.replicate 1025 65,
         closeW := true, poll := PollRes.ready true true,
         handlerSig2 := none, wait := WaitRes.running,
         readRes := ReadRes.chunk (List.replicate 1024 65),
         writeRes := WriteRes.ok }] = true ∧
    writesOkb
      [{ handlerSig := none, arrive := List.replicate 1025 65,
         closeW := true, poll := PollRes.ready true true,
         handlerSig2 := none, wait := WaitRes.running,
         readRes := ReadRes.chunk (List.replicate 1024 65),
         writeRes := WriteRes.ok }] = true ∧
    runLoop initLoopSt
      [{ handlerSig := none, arrive := List.replicate 1025 65,
         closeW := true, poll := PollRes.ready true true,
         handlerSig2 := none, wait := WaitRes.running,
         readRes := ReadRes.chunk (List.replicate 1024 65),
         writeRes := WriteRes.ok }] =
      ({ sig := 0, buf := List.replicate 1 65, closed := true,
         out := List.replicate 1024 65,
         written := List.replicate 1025 65 }, some LoopExit.hupBreak) ∧
    List.replicate 1024 (65 : Byte) ≠ List.replicate 1025 (65 : Byte) := by
  decide

/-- Claim C2 (amended): over any well-formed trace whose writes to the
caller all succeed, the bytes forwarded by the loop followed by the
bytes still buffered equal, in order, exactly the bytes the child wrote
(so forwarding is in-order with no loss other than the final buffered
suffix and no duplication), and when the loop exits via pipe EOF the
forwarded bytes are all of the child's bytes; at an error/hang-up exit
the buffered suffix is lost. -/
theorem orderedDelivery_amended (es : List LoopEv) (s' : LoopSt)
    (x : LoopExit)
    (hwf : traceWfb initLoopSt es = true) (hok : writesOkb es = true)
    (hrun : runLoop initLoopSt es = (s', some x)) :
    s'.out ++ s'.buf = s'.written ∧
    (x = LoopExit.eofBreak → s'.out = s'.written) := by
  have h := runLoop_inv es initLoopSt hwf hok rfl
  rw [hrun] at h
  refine ⟨h.1, fun hx => ?_⟩
  have hb : s'.buf = [] := h.2 (by rw [hx])
  have h1 := h.1
  rw [hb, List.append_nil] at h1
  exact h1

/-- Witness for the claim C2 theorem: a child that writes two bytes and
then closes; the loop forwards both bytes and exits via EOF with
complete delivery. -/
theorem orderedDelivery_amended_witness :
    (({ sig := 0, buf := [], closed := true, out := [104, 105],
        written := [104, 105] } : LoopSt).out ++
      ({ sig := 0, buf := [], closed := true, out := [104, 105],
         written := [104, 105] } : LoopSt).buf =
      ({ sig := 0, buf := [], closed := true, out := [104, 105],
         written := [104, 105] } : LoopSt).written) ∧
    (LoopExit.eofBreak = LoopExit.eofBreak →
      ({ sig := 0, buf := [], closed := true, out := [104, 105],
         written := [104, 105] } : LoopSt).out =
      ({ sig := 0, buf := [], closed := true, out := [104, 105],
         written := [104, 105] } : LoopSt).written) :=
  orderedDelivery_amended
    [{ handlerSig := none, arrive := [104, 105], closeW := false,
       poll := PollRes.ready true false, handlerSig2 := none,
       wait := WaitRes.running, readRes := ReadRes.chunk [104, 105],
       writeRes := WriteRes.ok },
     { handlerSig := none, arrive := [], closeW := true,
       poll := PollRes.ready true false, handlerSig2 := none,
       wait := WaitRes.running, readRes := ReadRes.eof,
       writeRes := WriteRes.ok }]
    { sig := 0, buf := [], closed := true, out := [104, 105],
      written := [104, 105] }
    LoopExit.eofBreak (by decide) (by decide) (by decide)

/-- The kill-wait loop only emits non-blocking reap attempts and 100 ms
sleeps. -/
theorem killWaitGo_polling (fuel : Nat) : ∀ (ws : List WaitRes) (waited : Nat),
    pollingActs (killWaitGo ws waited fuel).2 = true := by
  induction fuel with
  | zero => intro ws waited; rfl
  | succ f ih =>
      intro ws waited
      unfold killWaitGo
      by_cases h : waited < 5000
      · rw [if_pos h]
        cases ws with
        | nil => simp [pollingActs, ih]
        | cons w rest => cases w <;> simp [pollingActs, ih]
      · rw [if_neg h]; rfl

/-- The kill-wait loop sleeps at most 100 ms per unit of fuel. -/
theorem killWaitGo_sleep (fuel : Nat) : ∀ (ws : List WaitRes) (waited : Nat),
    sleepTotal (killWaitGo ws waited fuel).2 ≤ 100 * fuel := by
  induction fuel with
  | zero => intro ws waited; simp [killWaitGo, sleepTotal]
  | succ f ih =>
      intro ws waited
      unfold killWaitGo
      by_cases h : waited < 5000
      · rw [if_pos h]
        cases ws with
        | nil =>
            have hr := ih [] (waited + 100)
            simp only [sleepTotal]
            omega
        | cons w rest =>
            cases w with
            | reaped st => simp [sleepTotal]
            | failed => simp [sleepTotal]
            | running =>
                have hr := ih rest (waited + 100)
                simp only [sleepTotal]
                omega
      · rw [if_neg h]
        simp [sleepTotal]

theorem sleepTotal_append (a b : List Act) :
    sleepTotal (a ++ b) = sleepTotal a + sleepTotal b := by
  induction a with
  | nil => simp [sleepTotal]
  | cons x r ih =>
      cases x <;> simp [sleepTotal, ih]
      omega

theorem pollingActs_append (a b : List Act)
    (ha : pollingActs a = true) (hb : pollingActs b = true) :
    pollingActs (a ++ b) = true := by
  induction a with
  | nil => simpa using hb
  | cons x r ih =>
      cases x <;> simp [pollingActs] at ha ⊢ <;>
        first
          | exact ih ha
          | exact ⟨ha.1, ih ha.2⟩

/-- Claim C3: whenever the flag is set when the supervision loop exits,
`launchJvm` returns -1 with the child identifier cleared, and its
post-loop actions are: close the read end, send SIGKILL to the child
unconditionally, then only non-blocking reap attempts and 100 ms sleeps
totalling at most 5000 ms — regardless of the reap results, so also when
the child had already exited cleanly. -/
theorem cancellationShutdown (argv : List (List Byte)) (g : GState)
    (ev : LaunchEv) (pid : Int) (r : LaunchOut)
    (hfork : ev.setup.forkRes = some pid)
    (hrun : launchJvm argv g ev = some r)
    (hsig : r.sig ≠ 0) (hx : r.exit ≠ none) :
    r.ret = -1 ∧ r.child_pid = -1 ∧
    ∃ rest,
      r.acts = Act.spawn argv :: Act.closeWr :: Act.closeRd ::
               Act.kill pid SIGKILL :: rest ∧
      pollingActs rest = true ∧ sleepTotal rest ≤ 5000 := by
  unfold launchJvm at hrun
  by_cases h1 : ev.setup.sigactionOk = false
  · rw [if_pos h1] at hrun
    cases Option.some.inj hrun
    exact absurd rfl hx
  · rw [if_neg h1] at hrun
    by_cases h2 : ev.setup.pipeOk = false
    · rw [if_pos h2] at hrun
      cases Option.some.inj hrun
      exact absurd rfl hx
    · rw [if_neg h2, hfork] at hrun
      rcases hr : runLoop initLoopSt ev.events with ⟨sF, oX⟩
      rw [hr] at hrun
      cases oX with
      | none => exact absurd hrun (by simp)
      | some x =>
          cases Option.some.inj hrun
          have hsF : sF.sig ≠ 0 := hsig
          refine ⟨by simp [afterLoop, hsF],
            afterLoop_child pid sF.sig ev.shutdown, ?_⟩
          refine ⟨(killWaitGo ev.shutdown.killWaits 0 50).2 ++
            (if (killWaitGo ev.shutdown.killWaits 0 50).1 ≥ 5000
              then [Act.warnTimeout] else []), ?_, ?_, ?_⟩
          · simp [afterLoop, hsF]
          · apply pollingActs_append
            · exact killWaitGo_polling 50 ev.shutdown.killWaits 0
            · by_cases hw : (killWaitGo ev.shutdown.killWaits 0 50).1 ≥ 5000 <;>
                simp [hw, pollingActs]
          · rw [sleepTotal_append]
            have h50 := killWaitGo_sleep 50 ev.shutdown.killWaits 0
            have hwarn :
                sleepTotal (if (killWaitGo ev.shutdown.killWaits 0 50).1 ≥ 5000
                  then [Act.warnTimeout] else []) = 0 := by
              by_cases hw : (killWaitGo ev.shutdown.killWaits 0 50).1 ≥ 5000 <;>
                simp [hw, sleepTotal]
            omega

/-- Witness for the claim C3 theorem: a cancelled launch whose child was
already reaped as cleanly exited on the first kill-wait attempt still
returns -1. -/
theorem cancellationShutdown_witness :
    ({ ret := -1, child_pid := -1, sig := 15, out := [],
       acts := [Act.spawn [[106]], Act.closeWr, Act.closeRd,
                Act.kill 43 SIGKILL, Act.reapNB],
       exit := some LoopExit.sigBreak } : LaunchOut).ret = -1 ∧
    ({ ret := -1, child_pid := -1, sig := 15, out := [],
       acts := [Act.spawn [[106]], Act.closeWr, Act.closeRd,
                Act.kill 43 SIGKILL, Act.reapNB],
       exit := some LoopExit.sigBreak } : LaunchOut).child_pid = -1 ∧
    ∃ rest,
      ({ ret := -1, child_pid := -1, sig := 15, out := [],
         acts := [Act.spawn [[106]], Act.closeWr, Act.closeRd,
                  Act.kill 43 SIGKILL, Act.reapNB],
         exit := some LoopExit.sigBreak } : LaunchOut).acts =
        Act.spawn [[106]] :: Act.closeWr :: Act.closeRd ::
          Act.kill 43 SIGKILL :: rest ∧
      pollingActs rest = true ∧ sleepTotal rest ≤ 5000 :=
  cancellationShutdown [[106]] { child_pid := -1, signal_received := 0 }
    { setup := { sigactionOk := true, pipeOk := true, forkRes := some 43 },
      events := [{ handlerSig := some 15, arrive := [], closeW := false,
                   poll := PollRes.pollFail true, handlerSig2 := none,
                   wait := WaitRes.running, readRes := ReadRes.readFail true,
                   writeRes := WriteRes.ok }],
      shutdown := { killWaits := [WaitRes.reaped (Status.exited 0)],
                    blockWait := none } }
    43
    { ret := -1, child_pid := -1, sig := 15, out := [],
      acts := [Act.spawn [[106]], Act.closeWr, Act.closeRd,
               Act.kill 43 SIGKILL, Act.reapNB],
      exit := some LoopExit.sigBreak }
    (by decide) (by decide) (by decide) (by decide)

/-- Claim C1 evaluation at the failing input: the child exits normally
with status 7 while the pipe stays open (poll times out), the loop's
non-blocking `waitpid` reaps it and breaks, and then the post-loop
blocking `waitpid` necessarily fails (the child is already reaped), so
`launchJvm` returns -1 instead of the child's exit status 7 — with the
flag never set and the oracle well-formed. -/
theorem reapedInLoopLosesStatus :
    launchWfb
      { setup := { sigactionOk := true, pipeOk := true, forkRes := some 42 },
        events := [{ handlerSig := none, arrive := [], closeW := false,
                     poll := PollRes.timedOut, handlerSig2 := none,
                     wait := WaitRes.reaped (Status.exited 7),
                     readRes := ReadRes.readFail true,
                     writeRes := WriteRes.ok }],
        shutdown := { killWaits := [], blockWait := none } } = true ∧
    launchJvm [[47]] { child_pid := -1, signal_received := 0 }
      { setup := { sigactionOk := true, pipeOk := true, forkRes := some 42 },
        events := [{ handlerSig := none, arrive := [], closeW := false,
                     poll := PollRes.timedOut, handlerSig2 := none,
                     wait := WaitRes.reaped (Status.exited 7),
                     readRes := ReadRes.readFail true,
                     writeRes := WriteRes.ok }],
        shutdown := { killWaits := [], blockWait := none } } =
      some { ret := -1, child_pid := -1, sig := 0, out := [],
             acts := [Act.spawn [[47]], Act.closeWr, Act.closeRd,
                      Act.reapBlock],
             exit := some (LoopExit.reapBreak (Status.exited 7)) } ∧
    (-1 : Int) ≠ 7 := by
  decide

end MyAWT
